import Mathlib

/-!
Verification of the StrudelCover orchestration layer.

This file gives a shallow embedding of the retry/repair state machine, the
multi-pass refinement pipeline, the recording controller and the broadcast
channel of the StrudelCover `Dazzle` class, and proves (or refutes) the
properties claimed of them.

Two source variants exist in the repository:
* the earlier `Dazzle` variant (file `src/unnamed/part_013`) whose browser
  console handler routes runtime errors to a local parenthesis repair or to
  a retry-by-regeneration (`tryRemoveTrailingParen`, `retryWithErrorFeedback`);
* the current `src/src/dazzle.js`, whose console handler fails fast but which
  contains the multi-pass refinement pipeline (`gestaltMode`, `kaizenMode`,
  `surgeryMode`), the recording controller and the broadcast channel.

Each definition cites the function it embeds.
-/

namespace StrudelCover

/-! ## Generic JavaScript-semantics helpers -/

/-- JavaScript truthiness of an optional string: `null`/`undefined` and the
empty string are falsy, every other string is truthy. -/
def jsTruthy : Option String → Bool
  | none => false
  | some s => !(s == "")

/-- Predicate `hasPrefixCh pat cs` holds when the character list `pat` is a prefix of
`cs`.  Helper for `String.prototype.includes`. -/
def hasPrefixCh : List Char → List Char → Bool
  | [], _ => true
  | _ :: _, [] => false
  | p :: ps, c :: cs => p == c && hasPrefixCh ps cs

/-- Predicate `hasSubstrCh pat cs` holds when `pat` occurs contiguously inside `cs`. -/
def hasSubstrCh (pat : List Char) : List Char → Bool
  | [] => hasPrefixCh pat []
  | c :: cs => hasPrefixCh pat (c :: cs) || hasSubstrCh pat cs

/-- Function `strIncludes s pat` embeds JavaScript `s.includes(pat)`. -/
def strIncludes (s pat : String) : Bool :=
  hasSubstrCh pat.data s.data

/-- Deleting the final character of a document (the `End` + `Backspace`
gesture of `tryRemoveTrailingParen`). -/
def jsDropLast (s : String) : String :=
  String.mk s.data.dropLast

/-! ## The retry / repair state machine (`src/unnamed/part_013`)

The mutable fields of the `Dazzle` instance that the console-error handler
(`launchBrowser`, lines 114-142), `retryWithErrorFeedback` (413-428) and the
head of `generatePattern` (152-165) read and write. `pendingRetries` counts
`setTimeout(() => this.retryWithErrorFeedback(), 2000)` callbacks that have
been scheduled but have not yet run. -/

structure Dazzle013State where
  retryCount : Nat
  maxRetries : Nat
  lastError : Option String
  currentArtist : Option String
  currentSong : Option String
  pendingRetries : Nat
  editorText : String
  pageOpen : Bool
deriving DecidableEq

/-- Constructor state of `Dazzle` (`constructor`, part_013 lines 20-48):
`retryCount = 0`, `maxRetries = 3`, no error, no identity yet. -/
def initState : Dazzle013State :=
  { retryCount := 0, maxRetries := 3, lastError := none,
    currentArtist := none, currentSong := none, pendingRetries := 0,
    editorText := "", pageOpen := true }

/-- Observable side effects of a handler run: dashboard broadcasts, the
editor repair, the generation-service call, and timer scheduling. -/
inductive Effect where
  | broadcastError (text : String)
  | broadcastSongInfo (artist song : Option String)
  | broadcastRetryUpdate (count : Nat)
  | localRepairEdit
  | generateCall (errorFeedback : Option String)
  | scheduleRetryTimer
deriving DecidableEq

/-- The handler only reacts to console messages whose text `includes`
`SyntaxError` or `Error` (part_013 line 118). -/
def isStrudelError (text : String) : Bool :=
  strIncludes text "SyntaxError" || strIncludes text "Error"

/-- The stray-trailing-parenthesis signature (part_013 line 128):
an `Unexpected token` message together with a parenthesis reference. -/
def isParenSignature (text : String) : Bool :=
  strIncludes text "Unexpected token" &&
    (strIncludes text ")" || strIncludes text "paren")

/-- One run of the console-message error handler of `page.on` (part_013 lines
115-142) on error text `text`: store `lastError`, broadcast the error, then
either run the local parenthesis repair (`tryRemoveTrailingParen`, which
deletes the last editor character when the page is open and never touches
`retryCount`), or, when `retryCount < maxRetries` and an artist/song
identity is present, schedule a `retryWithErrorFeedback` timer. -/
def consoleErrorStep (s : Dazzle013State) (text : String) :
    Dazzle013State × List Effect :=
  if isStrudelError text then
    let s1 := { s with lastError := some text }
    if isParenSignature text then
      let s2 := if s1.pageOpen then { s1 with editorText := jsDropLast s1.editorText } else s1
      (s2, [.broadcastError text, .localRepairEdit])
    else if s1.retryCount < s1.maxRetries
        && jsTruthy s1.currentArtist && jsTruthy s1.currentSong then
      ({ s1 with pendingRetries := s1.pendingRetries + 1 },
        [.broadcastError text, .scheduleRetryTimer])
    else
      (s1, [.broadcastError text])
  else (s, [])

/-- The state-relevant head of `generatePattern(audioFile, artist, song,
errorFeedback)` (part_013 lines 152-165): store the identity, broadcast
`songInfo`, and reset `retryCount` to 0 exactly when `errorFeedback` is
falsy.  The single generation-service call of the body is recorded as a
`generateCall` effect. -/
def generatePatternStep (s : Dazzle013State)
    (artist song errorFeedback : Option String) :
    Dazzle013State × List Effect :=
  let s1 := { s with currentArtist := artist, currentSong := song }
  let s2 := if jsTruthy errorFeedback then s1 else { s1 with retryCount := 0 }
  (s2, [.broadcastSongInfo artist song, .generateCall errorFeedback])

/-- A scheduled `retryWithErrorFeedback` timer fires (part_013 lines
413-428): increment `retryCount`, broadcast the retry count, capture and
clear `lastError`, then call `generatePattern` with the captured error as
feedback.  With no timer pending nothing happens. -/
def fireRetryStep (s : Dazzle013State) : Dazzle013State × List Effect :=
  if s.pendingRetries = 0 then (s, [])
  else
    let s1 := { s with pendingRetries := s.pendingRetries - 1,
                       retryCount := s.retryCount + 1 }
    let errorToFix := s1.lastError
    let s2 := { s1 with lastError := none }
    let (s3, eff) := generatePatternStep s2 s2.currentArtist s2.currentSong errorToFix
    (s3, .broadcastRetryUpdate s1.retryCount :: eff)

/-- The three kinds of events that drive the retry machine: a top-level
(non-retry) `generatePattern` request, a console runtime error, and a
pending retry timer firing. -/
inductive Ev where
  | topGenerate (artist song : String)
  | consoleError (text : String)
  | fireRetry
deriving DecidableEq

/-- Dispatch one event. -/
def stepEv (s : Dazzle013State) : Ev → Dazzle013State × List Effect
  | .topGenerate a b => generatePatternStep s (some a) (some b) none
  | .consoleError t => consoleErrorStep s t
  | .fireRetry => fireRetryStep s

/-- Run a list of events, accumulating effects in order. -/
def runEv : Dazzle013State → List Ev → Dazzle013State × List Effect
  | s, [] => (s, [])
  | s, e :: rest =>
    let r1 := stepEv s e
    let r2 := runEv r1.1 rest
    (r2.1, r1.2 ++ r2.2)

/-- A trace is sequential when every console-error event is handled while no
retry timer is pending (the serialisation the specification demands of the
retry machine). -/
def seqTraceB : Dazzle013State → List Ev → Bool
  | _, [] => true
  | s, .topGenerate a b :: rest => seqTraceB (stepEv s (.topGenerate a b)).1 rest
  | s, .consoleError t :: rest =>
      (s.pendingRetries == 0) && seqTraceB (stepEv s (.consoleError t)).1 rest
  | s, .fireRetry :: rest => seqTraceB (stepEv s .fireRetry).1 rest

/-! ## The multi-pass refinement pipeline (`src/src/dazzle.js`)

`startMultiPassRefinement` (lines 497-511) runs `gestaltMode` (522-580),
which runs `kaizenMode` (582-645), which runs `surgeryMode` (647-735).
Each phase is embedded as the list of its observable events in order:
dashboard broadcasts, generation-service calls, editor installs, and the
`setTimeout`/`await`-based dwells.  Completion failures inside a phase are
caught per step (they skip only the visualization/install of that step, never the
call itself, the dwells or the phase order), so the event lists below record
the per-step success path. -/

/-- One pipeline event: a `modeChange` broadcast, a `visualizationUpdate`
broadcast (tagged with its `mode` field), a generation-service call (tagged
with the phase issuing it and its topic), another broadcast by type, a
whole-content editor install, or a timed dwell in milliseconds. -/
inductive PipeEvent where
  | modeChange (mode : String) (phase : Nat)
  | visualization (mode : String)
  | generate (phase : String) (topic : String)
  | broadcastType (btype : String)
  | install
  | wait (ms : Nat)
deriving DecidableEq

/-- The fixed canonical section names of `kaizenMode` (dazzle.js line 594). -/
def kaizenSections : List String :=
  ["intro", "verse", "chorus", "bridge", "outro"]

/-- Embeds `sections.filter(s => this.songStructure[s])` (dazzle.js line 595):
the canonical names filtered to those present in the song structure. -/
def availableSections (present : String → Bool) : List String :=
  kaizenSections.filter present

/-- A surgery target (`identifySurgeryTargets`, dazzle.js lines 737-783). -/
structure SurgeryTarget where
  ttype : String
  location : String
  description : String
deriving DecidableEq

/-- Embeds `identifySurgeryTargets` (dazzle.js lines 737-783): the fixed target
list, with the verse-to-chorus, intro and outro targets conditional on the
corresponding sections being present. -/
def identifySurgeryTargets (present : String → Bool) : List SurgeryTarget :=
  (if present "verse" && present "chorus" then
    [{ ttype := "transition", location := "Verse to Chorus transition",
       description := "Smooth the energy build from verse to chorus" }]
   else [])
  ++ [{ ttype := "drums", location := "1 measure before each chorus",
        description := "Add dynamic drum fills to signal chorus arrival" }]
  ++ (if present "intro" then
        [{ ttype := "hook", location := "First 4 measures of intro",
           description := "Create memorable opening hook" }]
      else [])
  ++ [{ ttype := "melody", location := "Second half of chorus",
        description := "Add melodic variation and flourishes" }]
  ++ (if present "outro" then
        [{ ttype := "effects", location := "Final 8 measures",
           description := "Add fadeout effects and final statement" }]
      else [])

/-- Embeds `gestaltMode` (dazzle.js 522-580): `modeChange` broadcast, one
generation call over the whole song, a visualization update, the editor
install, then the fixed 20-second dwell before Kaizen. -/
def gestaltEvents : List PipeEvent :=
  [.modeChange "gestalt" 1, .generate "gestalt" "whole song",
   .visualization "gestalt", .install, .wait 20000]

/-- The per-section body of the Kaizen loop (dazzle.js 608-629 and
`refineSection`, 794-864): in-progress visualization, one scoped generation
call, the `patternUpdate` broadcast, the editor install, then the done
visualization. -/
def kaizenSectionEvents (s : String) : List PipeEvent :=
  [.visualization "kaizen", .generate "kaizen" s,
   .broadcastType "patternUpdate", .install, .visualization "kaizen"]

/-- The Kaizen `for` loop (dazzle.js 608-635): sections in worklist order
with a 10-second wait between consecutive sections and none after the last. -/
def kaizenLoop : List String → List PipeEvent
  | [] => []
  | [s] => kaizenSectionEvents s
  | s :: s2 :: rest => kaizenSectionEvents s ++ [.wait 10000] ++ kaizenLoop (s2 :: rest)

/-- Embeds `kaizenMode` (dazzle.js 582-645): `modeChange` broadcast, the starting
worklist snapshot, the section loop, then the unconditional 15-second dwell
before `surgeryMode` (lines 640-641). -/
def kaizenEvents (present : String → Bool) : List PipeEvent :=
  [.modeChange "kaizen" 2, .visualization "kaizen"]
  ++ kaizenLoop (availableSections present)
  ++ [.wait 15000]

/-- The per-target body of the Surgery loop (dazzle.js 672-716): target
visualization, one scoped generation call, success visualization, install. -/
def surgeryTargetEvents (t : SurgeryTarget) : List PipeEvent :=
  [.visualization "surgery", .generate "surgery" t.description,
   .visualization "surgery", .install]

/-- The Surgery `for` loop (dazzle.js 672-722): targets in order with a
6-second wait between consecutive targets and none after the last. -/
def surgeryLoop : List SurgeryTarget → List PipeEvent
  | [] => []
  | [t] => surgeryTargetEvents t
  | t :: t2 :: rest => surgeryTargetEvents t ++ [.wait 6000] ++ surgeryLoop (t2 :: rest)

/-- Embeds `surgeryMode` (dazzle.js 647-735): `modeChange` broadcast, the target
list snapshot, the target loop, then the final completion summary broadcast
(the `updateVisualization` call with mode `complete`, lines 731-734). -/
def surgeryEvents (present : String → Bool) : List PipeEvent :=
  [.modeChange "surgery" 3, .visualization "surgery"]
  ++ surgeryLoop (identifySurgeryTargets present)
  ++ [.visualization "complete"]

/-- The whole pipeline started by `startMultiPassRefinement`: Gestalt, then
Kaizen, then Surgery (which ends with the completion summary); nothing
follows, so the pipeline never restarts. -/
def pipelineEvents (present : String → Bool) : List PipeEvent :=
  gestaltEvents ++ kaizenEvents present ++ surgeryEvents present

/-- The guard of `startMultiPassRefinement` (dazzle.js 498-501): the
pipeline body runs iff `songStructure` and `pattern` are both set. -/
def startMultiPassRefinementRuns (hasSongStructure hasPattern : Bool) : Bool :=
  hasSongStructure && hasPattern

/-- The generation-service calls of an event list, as (phase, topic) pairs. -/
def generatesOf (evs : List PipeEvent) : List (String × String) :=
  evs.filterMap fun e =>
    match e with
    | .generate p t => some (p, t)
    | _ => none

/-- The `modeChange` broadcasts of an event list, as (mode, phase) pairs. -/
def modeChangesOf (evs : List PipeEvent) : List (String × Nat) :=
  evs.filterMap fun e =>
    match e with
    | .modeChange m p => some (m, p)
    | _ => none

/-! ## Post-generation scheduling and autoplay (`src/src/dazzle.js`)

The tail of `generatePattern` (dazzle.js 424-433) schedules `autoplay` at
3000 ms unconditionally and `startMultiPassRefinement` at 10000 ms iff
`errorFeedback` is falsy.  Neither timer is conditioned on the outcome of
the other. -/

/-- The timers armed at the end of `generatePattern` (dazzle.js 424-433),
as (delay in ms, task name) pairs. -/
def postGenerationSchedule (errorFeedback : Option String) : List (Nat × String) :=
  (3000, "autoplay")
    :: (if jsTruthy errorFeedback then [] else [(10000, "startMultiPassRefinement")])

/-- The external browser facts `autoplay` (dazzle.js 992-1095) depends on. -/
structure BrowserEnv where
  page : Bool
  frameFound : Bool
  editorFound : Bool
  playButtonFound : Bool
deriving DecidableEq

/-- Whether `autoplay` confirms playback: it clicks the play button only
when the page exists, the Strudel frame is found and the play button is
found (dazzle.js 993, 1002-1006, 1078-1081); otherwise it returns early or
falls back to an unconfirmed space-bar gesture. -/
def autoplayPlayConfirmed (env : BrowserEnv) : Bool :=
  env.page && env.frameFound && env.playButtonFound

/-! ## Completion calls of the generation controller (`src/src/dazzle.js`)

`generatePattern` issues one `anthropic.messages.create` call (line 354)
inside a `try` whose `catch` rethrows (`Pattern generation failed: ...`,
line 396) with no fallback pattern, then on success always runs
`validatePattern` (line 403), which issues a second completion call and
falls back to the unvalidated text if that call fails (lines 482-494).
Each model below is paired with the number of completion invocations. -/

/-- Outcome of the generation phase: an accepted pattern or a fatal error
that propagates to the caller and aborts the session. -/
inductive GenResult where
  | ok (pattern : String)
  | fatal (message : String)
deriving DecidableEq

/-- The opening code-fence header after the three backticks: an optional
`javascript`/`js`/`strudel` tag followed by a newline (the regex of
`extractCode`, dazzle.js line 895).  Returns the header length. -/
def fenceTagLen (cs : List Char) : Option Nat :=
  if hasPrefixCh ("javascript\n").data cs then some 11
  else if hasPrefixCh ("js\n").data cs then some 3
  else if hasPrefixCh ("strudel\n").data cs then some 8
  else if hasPrefixCh ("\n").data cs then some 1
  else none

/-- Index of the first occurrence of `pat` in a character list. -/
def findSubCh (pat : List Char) : List Char → Option Nat
  | [] => if hasPrefixCh pat [] then some 0 else none
  | c :: cs =>
    if hasPrefixCh pat (c :: cs) then some 0
    else (findSubCh pat cs).map (· + 1)

/-- The three-backtick fence delimiter. -/
def fenceStr : String := "```"

/-- Leftmost fenced code block: at the first position where an opening
fence with a valid header is followed by a closing fence, return the
(untrimmed) interior. -/
def extractCodeAux : List Char → Option (List Char)
  | [] => none
  | c :: cs =>
    if hasPrefixCh fenceStr.data (c :: cs) then
      match fenceTagLen ((c :: cs).drop 3) with
      | some tl =>
        let body := (c :: cs).drop (3 + tl)
        match findSubCh fenceStr.data body with
        | some j => some (body.take j)
        | none => extractCodeAux cs
      | none => extractCodeAux cs
    else extractCodeAux cs

/-- Embeds `extractCode` (dazzle.js 893-904): the interior of the first fenced
code block verbatim, otherwise the whole response verbatim. -/
def extractCode (response : String) : String :=
  match extractCodeAux response.data with
  | some body => String.mk body
  | none => response

/-- Embeds `getFallbackPattern` (dazzle.js 906-916), defined but never called by
the current `generatePattern`. -/
def getFallbackPattern (song artist : String) : String :=
  "// Fallback pattern for " ++ song ++ " by " ++ artist ++
  "\nsetcps(120/60/4)\n\nstack(\n  sound(\"bd*4\"),\n  sound(\"hh*8\"),\n  sound(\"sd ~ sd\"),\n  note(\"c3 eb3 g3 c4\").sound(\"piano\").slow(4)\n)"

/-- The completion-call phase of `generatePattern` (dazzle.js 352-403):
`genCall` is the outcome of the generation completion, `valCall` of the
validation completion.  Returns the result together with the number of
completion invocations issued. -/
def generateCompletionPhase (genCall valCall : Except String String) :
    GenResult × Nat :=
  match genCall with
  | .error msg => (.fatal ("Pattern generation failed: " ++ msg), 1)
  | .ok raw =>
    let extracted := extractCode raw
    match valCall with
    | .ok vraw => (.ok (extractCode vraw), 2)
    | .error _ => (.ok extracted, 2)

/-! ## Broadcast message types (`src/src/dazzle.js`)

Every `this.broadcast({...})` call site of dazzle.js, in source order, by
its `type` field: `audioData` (line 94), `error` (127), `songInfo` (153),
`pattern` (413), `retryUpdate` (449), `modeChange` (528, 588, 653),
`visualizationUpdate` (786), `patternUpdate` (849), `autoplayStarted`
(977, 1085), `recordingStarted` (1122), `recordingStopped` (1161),
`log` (1236). -/

/-- The `type` fields of the broadcast call sites of dazzle.js, in source
order, duplicates kept. -/
def dazzleBroadcastCallTypes : List String :=
  ["audioData", "error", "songInfo", "pattern", "retryUpdate",
   "modeChange", "modeChange", "modeChange", "visualizationUpdate",
   "patternUpdate", "autoplayStarted", "autoplayStarted",
   "recordingStarted", "recordingStopped", "log"]

/-- The closed set of type discriminators of the external-interface table. -/
def specBroadcastTypes : List String :=
  ["pattern", "songInfo", "error", "retryUpdate", "autoplayStarted",
   "recordingStarted", "recordingStopped", "modeChange",
   "visualizationUpdate", "log"]

/-! ## The recording controller (`src/src/dazzle.js`)

`startRecording` (1097-1131) and `stopRecording` (1133-1165).
`timerArmed` models the `recordingTimeout` handle: armed by `startRecording`
(`setTimeout(..., 30000)`), cleared by `stopRecording` (`clearTimeout`). -/

structure RecorderState where
  isRecording : Bool
  timerArmed : Bool
  recordingStartTime : Nat
  audioFilename : Option String
  archiveFilename : Option String
deriving DecidableEq

/-- Embeds the sanitizer `replace` and `toLowerCase` chain (dazzle.js 1106-1107). -/
def sanitizeName (s : String) : String :=
  String.mk (s.data.map fun c => if c.isAlphanum then c.toLower else Char.ofNat 95)

/-- The auto-stop delay armed by `startRecording` (dazzle.js 1125-1130). -/
def recordingAutoStopMs : Nat := 30000

/-- Embeds `startRecording` (dazzle.js 1097-1131): a no-op while already
recording; otherwise record the start time, derive the output and archive
filenames from the sanitized artist/song and the timestamp (or the explicit
`recordOutput` path), and arm the 30-second auto-stop timer. -/
def startRecording (now : Nat) (artist song timestamp : String)
    (recordOutput : Option String) (s : RecorderState) : RecorderState :=
  if s.isRecording then s
  else
    let safeSong := sanitizeName song
    let safeArtist := sanitizeName artist
    if jsTruthy recordOutput then
      { isRecording := true, timerArmed := true, recordingStartTime := now,
        audioFilename := recordOutput,
        archiveFilename := some ("./recordings/archive/strudelcover_" ++ safeArtist
          ++ "_" ++ safeSong ++ "_" ++ timestamp ++ ".wav") }
    else
      { isRecording := true, timerArmed := true, recordingStartTime := now,
        audioFilename := some ("./recordings/strudelcover_" ++ safeArtist
          ++ "_" ++ safeSong ++ "_" ++ timestamp ++ ".wav"),
        archiveFilename := none }

/-- Embeds `stopRecording` (dazzle.js 1133-1165): a no-op while not recording;
otherwise clear the auto-stop timer and mark the recording stopped. -/
def stopRecording (s : RecorderState) : RecorderState :=
  if !s.isRecording then s
  else { s with isRecording := false, timerArmed := false }

/-- The auto-stop timer firing 30 seconds after a start: it can only fire
while still armed (not cleared), and its callback stops the recording only
if one is still in progress (dazzle.js 1125-1130). -/
def autoStopFire (s : RecorderState) : RecorderState :=
  if s.timerArmed && s.isRecording then stopRecording s else s

/-! ## The broadcast channel (`src/src/dazzle.js` lines 918-927 and
`src/unnamed/part_013` lines 490-499 — the two are identical) -/

/-- A connected WebSocket client, by its `readyState` (1 = open). -/
structure WsClient where
  readyState : Nat
deriving DecidableEq

/-- Embeds `broadcast(message)`: with no server (`this.wss` null) nothing is sent;
otherwise the serialized message is sent to exactly those clients whose
`readyState` is 1.  Returns the (client, data) sends performed. -/
def broadcastSends (wss : Option (List WsClient)) (data : String) :
    List (WsClient × String) :=
  match wss with
  | none => []
  | some clients =>
    (clients.filter fun c => c.readyState == 1).map fun c => (c, data)

/-! ## Concrete scenario data -/

/-- The apostrophe character (codepoint 39). -/
def squote : Char := Char.ofNat 39

/-- The runtime error text of the local-repair scenario: the message
`SyntaxError: Unexpected token` followed by a parenthesis in quotes. -/
def strayParenErrorText : String :=
  "SyntaxError: Unexpected token " ++ String.mk [squote, Char.ofNat 41, squote]

/-- A session state right after a first top-level generation: identity set,
no retries yet, a pattern in the editor. -/
def c2State : Dazzle013State :=
  { retryCount := 0, maxRetries := 3, lastError := none,
    currentArtist := some "The Beatles", currentSong := some "Hey Jude",
    pendingRetries := 0, editorText := "stack(sound(\"bd\")))", pageOpen := true }

/-- The runtime error text of the retry scenario. -/
def c1ErrText : String := "ReferenceError: kick is not defined"

/-- An event trace with runtime errors arriving while a retry is pending:
after the two back-to-back errors (events 6 and 7) two retry timers are
pending at once, so the two final firings push `retryCount` past
`maxRetries` and then reset it. -/
def c1CexTrace : List Ev :=
  [.topGenerate "The Beatles" "Hey Jude", .consoleError c1ErrText, .fireRetry,
   .consoleError c1ErrText, .fireRetry, .consoleError c1ErrText,
   .consoleError c1ErrText, .fireRetry, .fireRetry]

/-- A sequential trace: one top-level generation, one runtime error, the
scheduled retry firing. -/
def c1SeqTrace : List Ev :=
  [.topGenerate "The Beatles" "Hey Jude", .consoleError c1ErrText, .fireRetry]

/-- Runtime error texts of the reentrancy scenario. -/
def c3ErrKick : String := "ReferenceError: kick is not defined"

/-- Second runtime error of the reentrancy scenario. -/
def c3ErrBass : String := "ReferenceError: bass is not defined"

/-- Two runtime errors arriving before the first scheduled retry fires. -/
def c3Trace : List Ev :=
  [.topGenerate "The Beatles" "Hey Jude", .consoleError c3ErrKick,
   .consoleError c3ErrBass]

/-- Recognizer for generation-service call effects. -/
def isGenerateCall : Effect → Bool
  | .generateCall _ => true
  | _ => false

/-- A song structure with none of the canonical section names present. -/
def noSections : String → Bool := fun _ => false

/-- A song structure containing `intro` and `chorus` only. -/
def introChorusOnly : String → Bool := fun s => s == "intro" || s == "chorus"

/-- The browser environment when `chromium.launch` failed: no page. -/
def noBrowserEnv : BrowserEnv :=
  { page := false, frameFound := false, editorFound := false, playButtonFound := false }

/-- A recorder state with a recording in progress and the auto-stop timer
armed. -/
def c9RecState : RecorderState :=
  { isRecording := true, timerArmed := true, recordingStartTime := 5,
    audioFilename := some "out.wav", archiveFilename := none }

/-- Three dashboard clients: one open, one connecting, one closed. -/
def c10Clients : List WsClient :=
  [{ readyState := 1 }, { readyState := 0 }, { readyState := 3 }]

/-! ## The sequential-trace invariant of the retry machine -/

/-- Invariant of sequential executions of the part_013 retry machine: the
retry budget is 3, `retryCount` stays within it, at most one retry timer is
pending, and a pending timer was scheduled below the budget with a truthy
`lastError` captured. -/
def RetryInv (s : Dazzle013State) : Prop :=
  s.maxRetries = 3 ∧ s.retryCount ≤ 3 ∧ s.pendingRetries ≤ 1 ∧
    (s.pendingRetries = 1 → s.retryCount < 3 ∧ jsTruthy s.lastError = true)

/-! ## Structure of the pipeline event lists -/

theorem generatesOf_append (l1 l2 : List PipeEvent) :
    generatesOf (l1 ++ l2) = generatesOf l1 ++ generatesOf l2 := by
  simp [generatesOf]

theorem modeChangesOf_append (l1 l2 : List PipeEvent) :
    modeChangesOf (l1 ++ l2) = modeChangesOf l1 ++ modeChangesOf l2 := by
  simp [modeChangesOf]

theorem generatesOf_nil : generatesOf [] = [] := rfl

theorem generatesOf_modeChange (m : String) (p : Nat) (l : List PipeEvent) :
    generatesOf (PipeEvent.modeChange m p :: l) = generatesOf l := rfl

theorem generatesOf_visualization (m : String) (l : List PipeEvent) :
    generatesOf (PipeEvent.visualization m :: l) = generatesOf l := rfl

theorem generatesOf_generate (p t : String) (l : List PipeEvent) :
    generatesOf (PipeEvent.generate p t :: l) = (p, t) :: generatesOf l := rfl

theorem generatesOf_broadcastType (b : String) (l : List PipeEvent) :
    generatesOf (PipeEvent.broadcastType b :: l) = generatesOf l := rfl

theorem generatesOf_install (l : List PipeEvent) :
    generatesOf (PipeEvent.install :: l) = generatesOf l := rfl

theorem generatesOf_wait (ms : Nat) (l : List PipeEvent) :
    generatesOf (PipeEvent.wait ms :: l) = generatesOf l := rfl

theorem modeChangesOf_nil : modeChangesOf [] = [] := rfl

theorem modeChangesOf_modeChange (m : String) (p : Nat) (l : List PipeEvent) :
    modeChangesOf (PipeEvent.modeChange m p :: l) = (m, p) :: modeChangesOf l := rfl

theorem modeChangesOf_visualization (m : String) (l : List PipeEvent) :
    modeChangesOf (PipeEvent.visualization m :: l) = modeChangesOf l := rfl

theorem modeChangesOf_generate (p t : String) (l : List PipeEvent) :
    modeChangesOf (PipeEvent.generate p t :: l) = modeChangesOf l := rfl

theorem modeChangesOf_broadcastType (b : String) (l : List PipeEvent) :
    modeChangesOf (PipeEvent.broadcastType b :: l) = modeChangesOf l := rfl

theorem modeChangesOf_install (l : List PipeEvent) :
    modeChangesOf (PipeEvent.install :: l) = modeChangesOf l := rfl

theorem modeChangesOf_wait (ms : Nat) (l : List PipeEvent) :
    modeChangesOf (PipeEvent.wait ms :: l) = modeChangesOf l := rfl

theorem kaizenLoop_generates :
    ∀ l : List String, generatesOf (kaizenLoop l) = l.map fun s => ("kaizen", s)
  | [] => rfl
  | [_] => rfl
  | s :: s2 :: rest => by
    have ih := kaizenLoop_generates (s2 :: rest)
    simp only [kaizenLoop, generatesOf_append, ih]
    rfl

theorem surgeryLoop_generates :
    ∀ ts : List SurgeryTarget,
      generatesOf (surgeryLoop ts) = ts.map fun t => ("surgery", t.description)
  | [] => rfl
  | [_] => rfl
  | t :: t2 :: rest => by
    have ih := surgeryLoop_generates (t2 :: rest)
    simp only [surgeryLoop, generatesOf_append, ih]
    rfl

theorem kaizenLoop_modeChanges :
    ∀ l : List String, modeChangesOf (kaizenLoop l) = []
  | [] => rfl
  | [_] => rfl
  | s :: s2 :: rest => by
    have ih := kaizenLoop_modeChanges (s2 :: rest)
    simp only [kaizenLoop, modeChangesOf_append, ih]
    rfl

theorem surgeryLoop_modeChanges :
    ∀ ts : List SurgeryTarget, modeChangesOf (surgeryLoop ts) = []
  | [] => rfl
  | [_] => rfl
  | t :: t2 :: rest => by
    have ih := surgeryLoop_modeChanges (t2 :: rest)
    simp only [surgeryLoop, modeChangesOf_append, ih]
    rfl

theorem kaizenLoop_count_wait10 :
    ∀ l : List String, (kaizenLoop l).count (PipeEvent.wait 10000) = l.length - 1
  | [] => rfl
  | [_] => rfl
  | s :: s2 :: rest => by
    have ih := kaizenLoop_count_wait10 (s2 :: rest)
    simp only [kaizenLoop, List.count_append, ih]
    simp [kaizenSectionEvents, List.length_cons, Nat.add_sub_cancel, Nat.add_comm]

theorem kaizenLoop_count_complete :
    ∀ l : List String, (kaizenLoop l).count (PipeEvent.visualization "complete") = 0
  | [] => rfl
  | [_] => rfl
  | s :: s2 :: rest => by
    have ih := kaizenLoop_count_complete (s2 :: rest)
    simp only [kaizenLoop, List.count_append, ih]
    rfl

theorem surgeryLoop_count_complete :
    ∀ ts : List SurgeryTarget,
      (surgeryLoop ts).count (PipeEvent.visualization "complete") = 0
  | [] => rfl
  | [_] => rfl
  | t :: t2 :: rest => by
    have ih := surgeryLoop_count_complete (t2 :: rest)
    simp only [surgeryLoop, List.count_append, ih]
    rfl

theorem kaizenLoop_getLast :
    ∀ l : List String, l ≠ [] →
      (kaizenLoop l).getLast? = some (PipeEvent.visualization "kaizen")
  | [], h => absurd rfl h
  | [_], _ => rfl
  | s :: s2 :: rest, _ => by
    have ih := kaizenLoop_getLast (s2 :: rest) (by simp)
    simp only [kaizenLoop]
    rw [List.getLast?_append, ih]
    simp [ih]

/-! ## Invariant preservation for the retry machine -/

theorem strudelError_truthy (t : String) (h : isStrudelError t = true) :
    jsTruthy (some t) = true := by
  cases heq : t == "" with
  | true =>
    have ht : t = "" := eq_of_beq heq
    subst ht
    exact absurd h (by decide)
  | false => simp [jsTruthy, heq]

theorem stepEv_inv (s : Dazzle013State) (e : Ev) (hInv : RetryInv s)
    (hseq : ∀ t, e = Ev.consoleError t → s.pendingRetries = 0) :
    RetryInv (stepEv s e).1
    ∧ ∀ c, Effect.broadcastRetryUpdate c ∈ (stepEv s e).2 → c ≤ 3 := by
  obtain ⟨h3, hrc, hp, himp⟩ := hInv
  cases e with
  | topGenerate a b =>
    constructor
    · simp only [stepEv, generatePatternStep, RetryInv, jsTruthy,
        Bool.false_eq_true, if_false, reduceIte]
      refine ⟨h3, by omega, hp, fun h1 => ⟨by omega, (himp h1).2⟩⟩
    · intro c hc
      simp [stepEv, generatePatternStep] at hc
  | consoleError t =>
    have hp0 : s.pendingRetries = 0 := hseq t rfl
    by_cases he : isStrudelError t
    · by_cases hpar : isParenSignature t
      · constructor
        · by_cases hpg : s.pageOpen <;>
            · simp only [stepEv, consoleErrorStep, he, hpar, hpg, RetryInv, if_true,
                Bool.false_eq_true, if_false, reduceIte]
              exact ⟨h3, hrc, hp, fun h1 => absurd (hp0.symm.trans h1) (by decide)⟩
        · intro c hc
          by_cases hpg : s.pageOpen <;>
            simp [stepEv, consoleErrorStep, he, hpar, hpg] at hc
      · by_cases hgrd : (s.retryCount < s.maxRetries
            && jsTruthy s.currentArtist && jsTruthy s.currentSong) = true
        · constructor
          · have hlt : s.retryCount < s.maxRetries := by
              simp only [Bool.and_eq_true, decide_eq_true_eq] at hgrd
              exact hgrd.1.1
            simp only [stepEv, consoleErrorStep, he, hpar, hgrd, RetryInv, if_true,
              Bool.false_eq_true, if_false, reduceIte]
            refine ⟨h3, hrc, by omega, fun _ => ⟨by omega, strudelError_truthy t he⟩⟩
          · intro c hc
            simp [stepEv, consoleErrorStep, he, hpar, hgrd] at hc
        · constructor
          · simp only [stepEv, consoleErrorStep, he, hpar, hgrd, RetryInv, if_true,
              Bool.false_eq_true, if_false, reduceIte]
            exact ⟨h3, hrc, hp, fun h1 => absurd (hp0.symm.trans h1) (by decide)⟩
          · intro c hc
            simp [stepEv, consoleErrorStep, he, hpar, hgrd] at hc
    · constructor
      · simp only [stepEv, consoleErrorStep, he, Bool.false_eq_true, if_false, reduceIte]
        exact ⟨h3, hrc, hp, himp⟩
      · intro c hc
        simp [stepEv, consoleErrorStep, he] at hc
  | fireRetry =>
    by_cases hzero : s.pendingRetries = 0
    · constructor
      · simp only [stepEv, fireRetryStep, hzero, if_true, reduceIte]
        exact ⟨h3, hrc, hp, himp⟩
      · intro c hc
        simp [stepEv, fireRetryStep, hzero] at hc
    · have hp1 : s.pendingRetries = 1 := by omega
      obtain ⟨hrclt, hle⟩ := himp hp1
      constructor
      · simp only [stepEv, fireRetryStep, hzero, generatePatternStep, RetryInv,
          if_false, reduceIte, hle]
        refine ⟨h3, by omega, by omega, fun h1 => ?_⟩
        exact absurd h1 (by omega)
      · intro c hc
        simp only [stepEv, fireRetryStep, hzero, generatePatternStep,
          if_false, reduceIte, hle] at hc
        simp at hc
        omega

theorem runEv_inv :
    ∀ (tr : List Ev) (s : Dazzle013State), RetryInv s → seqTraceB s tr = true →
      RetryInv (runEv s tr).1
      ∧ ∀ c, Effect.broadcastRetryUpdate c ∈ (runEv s tr).2 → c ≤ 3
  | [], s, hInv, _ => ⟨hInv, by simp [runEv]⟩
  | e :: rest, s, hInv, hseq => by
    have hseqcond : ∀ t, e = Ev.consoleError t → s.pendingRetries = 0 := by
      intro t ht
      subst ht
      simp only [seqTraceB, Bool.and_eq_true, beq_iff_eq] at hseq
      exact hseq.1
    have hstep := stepEv_inv s e hInv hseqcond
    have hrest : seqTraceB (stepEv s e).1 rest = true := by
      cases e <;> simp only [seqTraceB, Bool.and_eq_true] at hseq
      · exact hseq
      · exact hseq.2
      · exact hseq
    have ih := runEv_inv rest (stepEv s e).1 hstep.1 hrest
    refine ⟨by simpa [runEv] using ih.1, ?_⟩
    intro c hc
    simp only [runEv, List.mem_append] at hc
    rcases hc with hc | hc
    · exact hstep.2 c hc
    · exact ih.2 c hc

/-! ## Claim C1: the retry budget -/

/-- C1 (counterexample): with runtime errors arriving while a retry is
pending, the retry budget is not respected — on `c1CexTrace` the state
after eight events has `retryCount = 3 = maxRetries` with one more retry
still pending; that retry fires anyway (with `retryCount` not below
`maxRetries`), broadcasts a retry-count of 4 > 3, and, because its captured
error is null, resets `retryCount` to 0 even though no top-level generation
occurred. -/
theorem c1_counterexample :
    initState.maxRetries = 3
    ∧ (runEv initState (c1CexTrace.take 8)).1.retryCount = 3
    ∧ (runEv initState (c1CexTrace.take 8)).1.pendingRetries = 1
    ∧ Effect.broadcastRetryUpdate 4 ∈ (runEv initState c1CexTrace).2
    ∧ (runEv initState c1CexTrace).1.retryCount = 0 := by
  decide

/-- C1 (amended): under sequential error handling — no runtime-error event
is processed while a retry is pending — `retryCount` never exceeds
`maxRetries` (3) and every broadcast retry-count is at most 3; moreover a
pending retry fires only from states (such as all sequentially reachable
ones) where `retryCount < maxRetries`, and it increments `retryCount` by
exactly 1; with no retry pending a firing is a no-op; `retryCount` is reset
to 0 exactly by a `generatePattern` call with falsy `errorFeedback` (a
top-level request) and is kept by one with truthy feedback; a console error
never changes `retryCount` (in particular the local repair does not), and
once `retryCount = maxRetries` a console error schedules no further
regeneration. -/
theorem c1_retry_budget :
    (∀ tr : List Ev, seqTraceB initState tr = true →
      (runEv initState tr).1.retryCount ≤ (runEv initState tr).1.maxRetries
      ∧ ∀ c, Effect.broadcastRetryUpdate c ∈ (runEv initState tr).2 →
          c ≤ initState.maxRetries)
    ∧ (∀ s : Dazzle013State, RetryInv s → s.pendingRetries = 1 →
        (fireRetryStep s).1.retryCount = s.retryCount + 1
        ∧ s.retryCount < s.maxRetries)
    ∧ (∀ s : Dazzle013State, s.pendingRetries = 0 → fireRetryStep s = (s, []))
    ∧ (∀ (s : Dazzle013State) (a b : String),
        (generatePatternStep s (some a) (some b) none).1.retryCount = 0)
    ∧ (∀ (s : Dazzle013State) (artist song ef : Option String),
        jsTruthy ef = true →
        (generatePatternStep s artist song ef).1.retryCount = s.retryCount)
    ∧ (∀ (s : Dazzle013State) (t : String),
        (consoleErrorStep s t).1.retryCount = s.retryCount)
    ∧ (∀ (s : Dazzle013State) (t : String), s.retryCount = s.maxRetries →
        (consoleErrorStep s t).1.pendingRetries = s.pendingRetries) := by
  refine ⟨fun tr hseq => ?_, fun s hInv hp1 => ?_, fun s h0 => ?_,
          fun s a b => rfl, fun s artist song ef hef => ?_, fun s t => ?_,
          fun s t hmax => ?_⟩
  · have hinv0 : RetryInv initState :=
      ⟨rfl, by decide, by decide, fun h => absurd h (by decide)⟩
    have h := runEv_inv tr initState hinv0 hseq
    obtain ⟨⟨h3, hrc, _, _⟩, hbr⟩ := h
    exact ⟨by omega, hbr⟩
  · obtain ⟨h3, hrc, hp, himp⟩ := hInv
    obtain ⟨hrclt, hle⟩ := himp hp1
    constructor
    · have hz : ¬s.pendingRetries = 0 := by omega
      simp only [fireRetryStep, hz, generatePatternStep, if_false, reduceIte, hle]
    · omega
  · simp [fireRetryStep, h0]
  · simp [generatePatternStep, hef]
  · by_cases he : isStrudelError t
    · by_cases hpar : isParenSignature t
      · by_cases hpg : s.pageOpen <;> simp [consoleErrorStep, he, hpar, hpg]
      · by_cases hgrd : (s.retryCount < s.maxRetries
            && jsTruthy s.currentArtist && jsTruthy s.currentSong) = true <;>
          simp [consoleErrorStep, he, hpar, hgrd]
    · simp [consoleErrorStep, he]
  · by_cases he : isStrudelError t
    · by_cases hpar : isParenSignature t
      · by_cases hpg : s.pageOpen <;> simp [consoleErrorStep, he, hpar, hpg]
      · have hgrd : ¬(s.retryCount < s.maxRetries
            && jsTruthy s.currentArtist && jsTruthy s.currentSong) = true := by
          simp only [Bool.and_eq_true, decide_eq_true_eq]
          intro hcontra
          omega
        simp [consoleErrorStep, he, hpar, hgrd]
    · simp [consoleErrorStep, he]

/-- Witness for C1 on a concrete sequential trace (one top-level request,
one runtime error, the scheduled retry firing). -/
theorem c1_witness :
    seqTraceB initState c1SeqTrace = true
    ∧ (runEv initState c1SeqTrace).1.retryCount
        ≤ (runEv initState c1SeqTrace).1.maxRetries :=
  ⟨by decide, (c1_retry_budget.1 c1SeqTrace (by decide)).1⟩

/-! ## Claim C2: the local-repair path -/

/-- C2: when a runtime error matches the stray-trailing-parenthesis
signature, the console handler takes the local-repair path — it removes one
trailing character from the editor document and re-evaluates — and this
path issues no generation-service call, schedules no retry, and leaves
`retryCount` (and the pending-retry count) unchanged; the handler performs
exactly one local-repair attempt for that error occurrence (the effect list
is the error broadcast followed by the single repair). -/
theorem c2_paren_local_repair (s : Dazzle013State) (t : String)
    (hpar : isParenSignature t = true) (herr : isStrudelError t = true) :
    (consoleErrorStep s t).1.retryCount = s.retryCount
    ∧ (consoleErrorStep s t).1.pendingRetries = s.pendingRetries
    ∧ (consoleErrorStep s t).2 = [Effect.broadcastError t, Effect.localRepairEdit]
    ∧ (∀ ef, Effect.generateCall ef ∉ (consoleErrorStep s t).2)
    ∧ Effect.scheduleRetryTimer ∉ (consoleErrorStep s t).2
    ∧ (s.pageOpen = true → (consoleErrorStep s t).1.editorText = jsDropLast s.editorText) := by
  by_cases hp : s.pageOpen <;>
    simp [consoleErrorStep, herr, hpar, hp]

/-- Witness for C2 at the scenario input: the quoted-parenthesis
`SyntaxError: Unexpected token` text on the first pattern triggers the
local-repair path and `retryCount` stays at 0. -/
theorem c2_witness :
    isParenSignature strayParenErrorText = true
    ∧ (consoleErrorStep c2State strayParenErrorText).1.retryCount = 0
    ∧ Effect.scheduleRetryTimer ∉ (consoleErrorStep c2State strayParenErrorText).2
    ∧ (consoleErrorStep c2State strayParenErrorText).1.editorText
        = jsDropLast c2State.editorText := by
  have h := c2_paren_local_repair c2State strayParenErrorText (by decide) (by decide)
  exact ⟨by decide, h.1.trans (by decide), h.2.2.2.2.1, h.2.2.2.2.2 (by decide)⟩

/-! ## Claim C3: reentrancy of the retry cycle -/

/-- C3 (failing-input evaluation): a second runtime error arriving while a
retry is already pending is neither ignored nor queued — the handler
schedules a second concurrent retry timer (`pendingRetries = 2`, two
`scheduleRetryTimer` effects), and when both timers fire each issues its
own generation call, so two overlapping regeneration/install cycles run on
the same editor state. -/
theorem c3_overlapping_retry_cycles :
    (runEv initState c3Trace).1.pendingRetries = 2
    ∧ (runEv initState c3Trace).2.count Effect.scheduleRetryTimer = 2
    ∧ (runEv initState c3Trace).2.countP isGenerateCall = 1
    ∧ (runEv initState (c3Trace ++ [Ev.fireRetry, Ev.fireRetry])).2.countP isGenerateCall = 3 := by
  decide

/-! ## Claim C4: pipeline phase order -/

/-- C4: once started, the refinement pipeline visits Gestalt, then Kaizen,
then Surgery, then Complete, in that fixed order: the generation calls are
exactly one Gestalt whole-song call, then one Kaizen call per present
section in canonical order, then one Surgery call per applicable fixed
target in order; the `modeChange` broadcasts are exactly Gestalt (phase 1),
Kaizen (phase 2), Surgery (phase 3), each once, in order, so no earlier
phase is revisited; the completion summary broadcast is the final event of
the pipeline and occurs exactly once, and nothing follows it (the pipeline
does not restart). -/
theorem c4_pipeline_phases (present : String → Bool) :
    generatesOf (pipelineEvents present)
      = ("gestalt", "whole song")
          :: ((availableSections present).map (fun s => ("kaizen", s))
              ++ (identifySurgeryTargets present).map (fun t => ("surgery", t.description)))
    ∧ modeChangesOf (pipelineEvents present)
        = [("gestalt", 1), ("kaizen", 2), ("surgery", 3)]
    ∧ (pipelineEvents present).getLast? = some (PipeEvent.visualization "complete")
    ∧ (pipelineEvents present).count (PipeEvent.visualization "complete") = 1 := by
  refine ⟨?_, ?_, ?_, ?_⟩
  · simp only [pipelineEvents, gestaltEvents, kaizenEvents, surgeryEvents,
      List.cons_append, List.nil_append, List.append_assoc,
      generatesOf_append, kaizenLoop_generates, surgeryLoop_generates,
      generatesOf_nil, generatesOf_modeChange, generatesOf_visualization,
      generatesOf_generate, generatesOf_broadcastType, generatesOf_install,
      generatesOf_wait, List.append_nil]
  · simp only [pipelineEvents, gestaltEvents, kaizenEvents, surgeryEvents,
      List.cons_append, List.nil_append, List.append_assoc,
      modeChangesOf_append, kaizenLoop_modeChanges, surgeryLoop_modeChanges,
      modeChangesOf_nil, modeChangesOf_modeChange, modeChangesOf_visualization,
      modeChangesOf_generate, modeChangesOf_broadcastType, modeChangesOf_install,
      modeChangesOf_wait, List.append_nil]
  · simp [pipelineEvents, gestaltEvents, kaizenEvents, surgeryEvents,
      List.getLast?_cons, List.getLast?_append]
  · simp [pipelineEvents, gestaltEvents, kaizenEvents, surgeryEvents,
      List.count_append, kaizenLoop_count_complete, surgeryLoop_count_complete,
      List.count_cons]

/-! ## Claim C6: the Kaizen worklist -/

/-- C6 (counterexample): with an empty worklist the Kaizen phase is not
advanced immediately — the phase still consists of its broadcasts followed
by the unconditional 15-second dwell before Surgery. -/
theorem c6_counterexample :
    availableSections noSections = []
    ∧ kaizenEvents noSections
        = [PipeEvent.modeChange "kaizen" 2, PipeEvent.visualization "kaizen",
           PipeEvent.wait 15000]
    ∧ PipeEvent.wait 15000 ∈ kaizenEvents noSections := by
  decide

/-- C6 (amended): the Kaizen worklist is exactly the fixed canonical
section names filtered to those present in the song structure; the phase
issues one generation call per worklist section in that order, waits 10
seconds between consecutive sections and not after the last one (the loop
ends on a visualization, and the 10-second waits number one fewer than the
sections); when the worklist is empty the phase issues no generation call
and no 10-second wait, but still ends with the unconditional 15-second
dwell before Surgery rather than advancing immediately. -/
theorem c6_kaizen_worklist (present : String → Bool) :
    (∀ s, s ∈ availableSections present ↔ s ∈ kaizenSections ∧ present s = true)
    ∧ generatesOf (kaizenEvents present)
        = (availableSections present).map (fun s => ("kaizen", s))
    ∧ (kaizenEvents present).count (PipeEvent.wait 10000)
        = (availableSections present).length - 1
    ∧ (availableSections present ≠ [] →
        (kaizenLoop (availableSections present)).getLast?
          = some (PipeEvent.visualization "kaizen"))
    ∧ (availableSections present = [] →
        generatesOf (kaizenEvents present) = []
        ∧ (kaizenEvents present).count (PipeEvent.wait 10000) = 0)
    ∧ (kaizenEvents present).getLast? = some (PipeEvent.wait 15000) := by
  refine ⟨fun s => ?_, ?_, ?_, kaizenLoop_getLast _, fun h => ?_, ?_⟩
  · simp [availableSections, List.mem_filter]
  · simp only [kaizenEvents, List.cons_append, List.nil_append,
      generatesOf_append, kaizenLoop_generates, generatesOf_nil,
      generatesOf_modeChange, generatesOf_visualization, generatesOf_wait,
      List.append_nil]
  · simp [kaizenEvents, List.count_append, kaizenLoop_count_wait10,
      List.count_cons]
  · constructor
    · simp only [kaizenEvents, h, kaizenLoop, List.cons_append, List.nil_append,
        generatesOf_append, generatesOf_nil, generatesOf_modeChange,
        generatesOf_visualization, generatesOf_wait, List.append_nil]
    · simp [kaizenEvents, h, kaizenLoop, List.count_append]
  · simp [kaizenEvents, List.getLast?_cons, List.getLast?_append]

/-- Witness for C6 at a structure containing `intro` and `chorus`: the
worklist is `[intro, chorus]` and the nonempty loop ends on a
visualization, not a wait. -/
theorem c6_witness :
    availableSections introChorusOnly = ["intro", "chorus"]
    ∧ (kaizenLoop (availableSections introChorusOnly)).getLast?
        = some (PipeEvent.visualization "kaizen") :=
  ⟨by decide, (c6_kaizen_worklist introChorusOnly).2.2.2.1 (by decide)⟩

/-! ## Claim C5: refinement scheduling -/

/-- C5 (counterexample): the refinement pipeline is not gated on a
successful play — with no browser page the play attempt can never be
confirmed, yet a top-level `generatePattern` still schedules
`startMultiPassRefinement` (at 10 s), whose guard checks only that the song
structure and the pattern exist. -/
theorem c5_counterexample :
    autoplayPlayConfirmed noBrowserEnv = false
    ∧ (10000, "startMultiPassRefinement") ∈ postGenerationSchedule none
    ∧ startMultiPassRefinementRuns true true = true := by
  decide

/-- C5 (amended): refinement is scheduled iff `errorFeedback` is falsy —
for a retry (`errorFeedback` present) only the 3-second autoplay timer is
armed and no refinement task ever appears in the schedule; for a top-level
generation the schedule is exactly the 3-second autoplay timer followed by
the 10-second refinement timer (so the first Gestalt call fires after the
scheduled 10-second wait, which is after the autoplay attempt, though
successful play is not a precondition). -/
theorem c5_refinement_scheduling (ef : Option String) :
    (jsTruthy ef = true → (postGenerationSchedule ef).map Prod.snd = ["autoplay"])
    ∧ (jsTruthy ef = false →
        postGenerationSchedule ef = [(3000, "autoplay"), (10000, "startMultiPassRefinement")])
    ∧ (∀ d, (d, "startMultiPassRefinement") ∈ postGenerationSchedule ef →
        jsTruthy ef = false ∧ d = 10000) := by
  refine ⟨fun h => ?_, fun h => ?_, fun d hd => ?_⟩
  · simp [postGenerationSchedule, h]
  · simp [postGenerationSchedule, h]
  · by_cases h : jsTruthy ef
    · simp [postGenerationSchedule, h] at hd
    · simp [postGenerationSchedule, h] at hd
      exact ⟨by simpa using h, hd⟩

/-- Witness for C5 at a concrete retry call: with error feedback present
the schedule holds only the autoplay task. -/
theorem c5_witness :
    jsTruthy (some "ReferenceError: kick is not defined") = true
    ∧ (postGenerationSchedule (some "ReferenceError: kick is not defined")).map Prod.snd
        = ["autoplay"] :=
  ⟨by decide,
   (c5_refinement_scheduling (some "ReferenceError: kick is not defined")).1 (by decide)⟩

/-! ## Claim C7: completion calls of the generation controller -/

/-- C7 (counterexample): a successful generate call issues the completion
capability twice, not exactly once — once for the generation and once for
the best-effort validation pass. -/
theorem c7_counterexample :
    (generateCompletionPhase (Except.ok "setcps(1)") (Except.ok "setcps(2)")).2 = 2
    ∧ ¬(generateCompletionPhase (Except.ok "setcps(1)") (Except.ok "setcps(2)")).2 = 1 := by
  decide

/-- C7 (amended): the generation completion is invoked exactly once per
generate call; on its transport failure the call fails fast after that
single invocation, propagating a fatal `Pattern generation failed` error
with no fallback pattern substituted; on success exactly one additional
validation completion runs (two invocations total), whose own failure is
non-fatal and keeps the unvalidated extracted text. -/
theorem c7_fail_fast :
    (∀ (msg : String) (valCall : Except String String),
      generateCompletionPhase (Except.error msg) valCall
        = (GenResult.fatal ("Pattern generation failed: " ++ msg), 1))
    ∧ (∀ (msg song artist : String) (valCall : Except String String),
        (generateCompletionPhase (Except.error msg) valCall).1
          ≠ GenResult.ok (getFallbackPattern song artist))
    ∧ (∀ (raw : String) (valCall : Except String String),
        (generateCompletionPhase (Except.ok raw) valCall).2 = 2)
    ∧ (∀ raw vraw : String,
        generateCompletionPhase (Except.ok raw) (Except.ok vraw)
          = (GenResult.ok (extractCode vraw), 2))
    ∧ (∀ raw vmsg : String,
        generateCompletionPhase (Except.ok raw) (Except.error vmsg)
          = (GenResult.ok (extractCode raw), 2)) := by
  refine ⟨fun msg valCall => rfl, fun msg song artist valCall => ?_,
          fun raw valCall => ?_, fun raw vraw => rfl, fun raw vmsg => rfl⟩
  · simp [generateCompletionPhase]
  · cases valCall <;> rfl

/-- Witness for C7 at a concrete failing generation call: one invocation,
fatal outcome, and no fallback pattern substituted. -/
theorem c7_witness :
    (generateCompletionPhase (Except.error "connection reset") (Except.ok "x")).2 = 1
    ∧ (generateCompletionPhase (Except.error "connection reset") (Except.ok "x")).1
        ≠ GenResult.ok (getFallbackPattern "Hey Jude" "The Beatles") :=
  ⟨congrArg Prod.snd
      (c7_fail_fast.1 "connection reset" (Except.ok "x")),
   c7_fail_fast.2.1 "connection reset" "Hey Jude" "The Beatles" (Except.ok "x")⟩

/-! ## Claim C8: broadcast message types -/

/-- C8 (counterexample): `refineSection` broadcasts a message of type
`patternUpdate`, which is outside the closed set of the external-interface
table. -/
theorem c8_counterexample :
    "patternUpdate" ∈ dazzleBroadcastCallTypes
    ∧ "patternUpdate" ∉ specBroadcastTypes := by
  decide

/-- C8 (amended): every broadcast call site of dazzle.js carries a type
from the external-interface table or one of the two additional types
`patternUpdate` (section refinement) and `audioData` (visualization
forwarding); conversely every type of the table is broadcast somewhere. -/
theorem c8_broadcast_types :
    (∀ t, t ∈ dazzleBroadcastCallTypes →
      t ∈ specBroadcastTypes ∨ t = "patternUpdate" ∨ t = "audioData")
    ∧ (∀ t, t ∈ specBroadcastTypes → t ∈ dazzleBroadcastCallTypes) := by
  constructor
  · intro t h
    fin_cases h <;> decide
  · intro t h
    fin_cases h <;> decide

/-- Witness for C8 at the `audioData` forwarding call site. -/
theorem c8_witness :
    "audioData" ∈ dazzleBroadcastCallTypes
    ∧ ("audioData" ∈ specBroadcastTypes ∨ "audioData" = "patternUpdate"
        ∨ "audioData" = "audioData") :=
  ⟨by decide, c8_broadcast_types.1 "audioData" (by decide)⟩

/-! ## Claim C9: recording lifecycle -/

/-- C9: `startRecording` is idempotent — while a recording is in progress
it is a no-op that changes no state; a start that does begin a recording
arms the 30-second auto-stop timer, whose firing stops a recording still in
progress; `stopRecording` clears the timer, so after an explicit stop the
auto-stop cannot fire (it is a no-op on the stopped state). -/
theorem c9_recording_lifecycle :
    (∀ (now : Nat) (artist song ts : String) (ro : Option String) (s : RecorderState),
      s.isRecording = true → startRecording now artist song ts ro s = s)
    ∧ (∀ (now : Nat) (artist song ts : String) (ro : Option String) (s : RecorderState),
        s.isRecording = false →
        (startRecording now artist song ts ro s).isRecording = true
        ∧ (startRecording now artist song ts ro s).timerArmed = true
        ∧ recordingAutoStopMs = 30000)
    ∧ (∀ s : RecorderState, s.isRecording = true → s.timerArmed = true →
        (autoStopFire s).isRecording = false)
    ∧ (∀ s : RecorderState, s.isRecording = true →
        (stopRecording s).timerArmed = false
        ∧ autoStopFire (stopRecording s) = stopRecording s) := by
  refine ⟨fun now artist song ts ro s h => ?_, fun now artist song ts ro s h => ?_,
          fun s h1 h2 => ?_, fun s h => ?_⟩
  · simp [startRecording, h]
  · by_cases hro : jsTruthy ro <;>
      simp [startRecording, h, hro, recordingAutoStopMs]
  · simp [autoStopFire, stopRecording, h1, h2]
  · simp [stopRecording, autoStopFire, h]

/-- Witness for C9 at a concrete in-progress recording. -/
theorem c9_witness :
    c9RecState.isRecording = true
    ∧ (autoStopFire c9RecState).isRecording = false
    ∧ (stopRecording c9RecState).timerArmed = false :=
  ⟨by decide,
   c9_recording_lifecycle.2.2.1 c9RecState (by decide) (by decide),
   (c9_recording_lifecycle.2.2.2 c9RecState (by decide)).1⟩

/-! ## Claim C10: totality and safety of broadcast -/

/-- C10: `broadcast` is total and exception-free — with no WebSocket server
it performs no sends, and otherwise the serialized message goes exactly to
those connected clients whose `readyState` is open (1); clients in
connecting, closing, or closed states are silently skipped. -/
theorem c10_broadcast_safe :
    (∀ data, broadcastSends none data = [])
    ∧ (∀ (clients : List WsClient) (data : String) (c : WsClient) (d : String),
        (c, d) ∈ broadcastSends (some clients) data →
        c.readyState = 1 ∧ c ∈ clients ∧ d = data)
    ∧ (∀ (clients : List WsClient) (data : String) (c : WsClient),
        c ∈ clients → c.readyState = 1 →
        (c, data) ∈ broadcastSends (some clients) data) := by
  refine ⟨fun data => rfl, fun clients data c d h => ?_, fun clients data c hc h1 => ?_⟩
  · simp [broadcastSends, List.mem_map, List.mem_filter] at h
    obtain ⟨a, ⟨ha, haopen⟩, heq1, heq2⟩ := h
    subst heq1
    subst heq2
    exact ⟨by simpa using haopen, ha, rfl⟩
  · have hmem : c ∈ clients.filter (fun c => c.readyState == 1) :=
      List.mem_filter.mpr ⟨hc, by simp [h1]⟩
    simp only [broadcastSends]
    exact List.mem_map.mpr ⟨c, hmem, rfl⟩

/-- Witness for C10: with one open, one connecting and one closed client,
the open client receives the message. -/
theorem c10_witness :
    ({ readyState := 1 } : WsClient) ∈ c10Clients
    ∧ (({ readyState := 1 } : WsClient), "msg") ∈ broadcastSends (some c10Clients) "msg" :=
  ⟨by decide,
   c10_broadcast_safe.2.2 c10Clients "msg" { readyState := 1 } (by decide) (by decide)⟩

end StrudelCover
